import Mathlib

/-!
# Crystalline threaded training engine — verification of the optimizer,
batch iterator and construction paths

Shallow embedding of the training core of the `crystalline` repository.
The C fragments carried by the repository's patch scripts
(`update_optimizer.py`, `update_optimizer_layers.py`, `fix_optimizer.py`,
`implement_attention_backward.py`, `add_debug_properly.py`,
`fix_train_model_final.py`) are translated into pure Lean functions over
rational numbers; the components whose C bodies the scripts only reference
(`cllm_batch_iterator_*`, `cllm_adam_step`, the body of
`threaded_training_create`) are modelled from the specification, as marked
in their doc comments.
-/

namespace Crystalline

/-- Per-layer attention matrices (used both for the model's Q/K/V projection
weights and for the matching gradient buffers): flat `embed_dim × embed_dim`
lattices, as in `AttentionLayer` / `training->attention_grads[layer]`. -/
structure AttentionMats where
  query_lattice : List ℚ
  key_lattice : List ℚ
  value_lattice : List ℚ
  deriving Repr, DecidableEq

/-- Per-layer feed-forward matrices (weights or the matching gradient
buffers), as in `FeedForwardLayer` / `training->ff_grads[layer]`. -/
structure FFMats where
  w1_lattice : List ℚ
  w2_lattice : List ℚ
  bias1 : List ℚ
  bias2 : List ℚ
  deriving Repr, DecidableEq

/-- The model's learnable parameters: embedding matrix (flattened
`vocab_size × embedding_dim`), per-layer attention projections and per-layer
feed-forward weights. -/
structure CLLMModel where
  embeddings : List ℚ
  attention_layers : List AttentionMats
  ff_layers : List FFMats
  deriving Repr, DecidableEq

/-- Optimizer configuration (`training->config`): `learning_rate` and
`gradient_accumulation_steps` (a C `int`, hence `ℤ`). -/
structure CLLMConfig where
  learning_rate : ℚ
  gradient_accumulation_steps : ℤ
  deriving Repr, DecidableEq

/-- Training state (`CLLMTraining`): accumulation counter (a C `int`),
configuration, the model, the flat embedding-gradient buffer
(`training->gradients`) and the per-layer attention / feed-forward gradient
buffers. -/
structure CLLMTraining where
  accumulation_step : ℤ
  config : CLLMConfig
  model : CLLMModel
  gradients : List ℚ
  attention_grads : List AttentionMats
  ff_grads : List FFMats
  deriving Repr, DecidableEq

/-- One SGD update loop: `param[i] -= lr * grad[i] * scale` over the tensor. -/
def updateVec (lr scale : ℚ) (p g : List ℚ) : List ℚ :=
  List.zipWith (fun x y => x - lr * y * scale) p g

/-- The in-place clearing loop `grad[i] = 0.0f` over the tensor. -/
def zeroVec (g : List ℚ) : List ℚ :=
  g.map (fun _ => (0 : ℚ))

/-- Per-layer attention update from `update_optimizer_layers.py`: each of the
Q/K/V weight lattices gets `-= lr * grad * gradient_scale` and the matching
gradient lattice is cleared to zero in the same loop. Returns the updated
weights and the cleared gradients. -/
def updateAttnLayer (lr scale : ℚ) (w g : AttentionMats) :
    AttentionMats × AttentionMats :=
  (⟨updateVec lr scale w.query_lattice g.query_lattice,
    updateVec lr scale w.key_lattice g.key_lattice,
    updateVec lr scale w.value_lattice g.value_lattice⟩,
   ⟨zeroVec g.query_lattice, zeroVec g.key_lattice, zeroVec g.value_lattice⟩)

/-- Per-layer feed-forward update from `update_optimizer_layers.py`:
W1/W2/bias1/bias2 get `-= lr * grad * gradient_scale` and the gradients are
cleared in the same loop. -/
def updateFFLayer (lr scale : ℚ) (w g : FFMats) : FFMats × FFMats :=
  (⟨updateVec lr scale w.w1_lattice g.w1_lattice,
    updateVec lr scale w.w2_lattice g.w2_lattice,
    updateVec lr scale w.bias1 g.bias1,
    updateVec lr scale w.bias2 g.bias2⟩,
   ⟨zeroVec g.w1_lattice, zeroVec g.w2_lattice,
    zeroVec g.bias1, zeroVec g.bias2⟩)

/-- The parameter-update half of `cllm_optimizer_step` (SGD version, from
`update_optimizer.py` and `update_optimizer_layers.py`): update embeddings,
then every layer's attention and feed-forward weights, clearing each gradient
buffer in place as it goes. The C loops run over `model->num_layers`,
indexing the weight and gradient arrays in lockstep, rendered here as
`zipWith` over the two lists. -/
def applyGradients (lr scale : ℚ) (t : CLLMTraining) : CLLMTraining :=
  let pairsA := List.zipWith (updateAttnLayer lr scale)
      t.model.attention_layers t.attention_grads
  let pairsF := List.zipWith (updateFFLayer lr scale)
      t.model.ff_layers t.ff_grads
  { t with
    model :=
      { embeddings := updateVec lr scale t.model.embeddings t.gradients,
        attention_layers := pairsA.map Prod.fst,
        ff_layers := pairsF.map Prod.fst },
    gradients := zeroVec t.gradients,
    attention_grads := pairsA.map Prod.snd,
    ff_grads := pairsF.map Prod.snd }

/-- The effective accumulation-step count: `accum_steps <= 0` is treated as
`1` (`if (accum_steps <= 0) accum_steps = 1;`). -/
def effectiveAccumSteps (t : CLLMTraining) : ℤ :=
  if t.config.gradient_accumulation_steps ≤ 0 then 1
  else t.config.gradient_accumulation_steps

/-- `cllm_optimizer_step` (SGD version with gradient accumulation, from
`update_optimizer.py` + `update_optimizer_layers.py`): increment
`accumulation_step`; if it is still `< accum_steps`, return without touching
parameters; otherwise reset the counter to 0, set
`gradient_scale = 1 / accum_steps`, and apply the scaled SGD update, clearing
each gradient buffer in place. -/
def cllm_optimizer_step (t : CLLMTraining) : CLLMTraining :=
  let accum_steps := effectiveAccumSteps t
  let counter := t.accumulation_step + 1
  if counter < accum_steps then
    { t with accumulation_step := counter }
  else
    let gradient_scale : ℚ := 1 / ((accum_steps : ℚ))
    applyGradients t.config.learning_rate gradient_scale
      { t with accumulation_step := 0 }

/-- One position's contribution in `attention_backward`
(`implement_attention_backward.py`): for all `d1, d2 < embed_dim` the buffer
receives `buf[d1 * embed_dim + d2] += attn_input[d1] * grad[d2]`. A flat
buffer is a function `ℕ → ℚ`; exactly the indices `< embed_dim * embed_dim`
are touched, and index `i = d1 * embed_dim + d2` decodes as
`d1 = i / embed_dim`, `d2 = i % embed_dim`. -/
def addOuter (embed_dim : ℕ) (attn_input grad : ℕ → ℚ) (buf : ℕ → ℚ) :
    ℕ → ℚ :=
  fun i =>
    if i < embed_dim * embed_dim then
      buf i + attn_input (i / embed_dim) * grad (i % embed_dim)
    else buf i

/-- The attention-backward step for one position
(`implement_attention_backward.py`): the query, key and value gradient
lattices each accumulate the identical outer-product contribution
`attn_input[d1] * grad[d2]`. -/
def attention_backward_step (embed_dim : ℕ) (attn_input grad : ℕ → ℚ)
    (qkv : (ℕ → ℚ) × (ℕ → ℚ) × (ℕ → ℚ)) :
    (ℕ → ℚ) × (ℕ → ℚ) × (ℕ → ℚ) :=
  (addOuter embed_dim attn_input grad qkv.1,
   addOuter embed_dim attn_input grad qkv.2.1,
   addOuter embed_dim attn_input grad qkv.2.2)

/-- A whole backward pass over a list of positions, each contributing its
`(attn_input, grad)` pair to the layer's Q/K/V gradient lattices. -/
def attention_backward (embed_dim : ℕ)
    (positions : List ((ℕ → ℚ) × (ℕ → ℚ)))
    (qkv : (ℕ → ℚ) × (ℕ → ℚ) × (ℕ → ℚ)) :
    (ℕ → ℚ) × (ℕ → ℚ) × (ℕ → ℚ) :=
  positions.foldl
    (fun acc p => attention_backward_step embed_dim p.1 p.2 acc) qkv

/-- The all-zero flat buffer. -/
def zeroBuf : ℕ → ℚ := fun _ => 0

/-- Adam optimizer state (modelled from the spec: "per-parameter first/second
moment buffers, a global step counter used for bias correction"; the body of
`cllm_adam_step` lives in `src/ai/cllm_optimizer.c`, which no patch script
carries). -/
structure AdamState where
  m : List ℚ
  v : List ℚ
  step_count : ℕ
  deriving Repr, DecidableEq

/-- Training state for the Adam variant of the optimizer
(`fix_optimizer.py`): a flattened parameter vector, the matching raw gradient
buffer, the Adam state, the accumulation counter and the configuration. -/
structure AdamTraining where
  accumulation_step : ℤ
  config : CLLMConfig
  params : List ℚ
  gradients : List ℚ
  adam : AdamState
  deriving Repr, DecidableEq

/-- Adam's exponential-decay rate for the first moment (conventional
default; not fixed by the patch scripts). -/
def adamBeta1 : ℚ := 9 / 10

/-- Adam's exponential-decay rate for the second moment (conventional
default; not fixed by the patch scripts). -/
def adamBeta2 : ℚ := 999 / 1000

/-- Adam's denominator-stabilising epsilon (conventional default). -/
def adamEps : ℚ := 1 / 100000000

/-- First-moment recurrence `m' = β₁·m + (1-β₁)·g`. -/
def adamMomentM (g : List ℚ) (m : List ℚ) : List ℚ :=
  List.zipWith (fun mi gi => adamBeta1 * mi + (1 - adamBeta1) * gi) m g

/-- Second-moment recurrence `v' = β₂·v + (1-β₂)·g²`. -/
def adamMomentV (g : List ℚ) (v : List ℚ) : List ℚ :=
  List.zipWith (fun vi gi => adamBeta2 * vi + (1 - adamBeta2) * gi * gi) v g

/-- Modelled from the spec: `cllm_adam_step` ("Adam moment update with bias
correction using a monotonically increasing global step counter", §4.3; its C
body in `src/ai/cllm_optimizer.c` is absent from the patch scripts).
Increments the global step counter, updates both moment buffers by the Adam
recurrences, applies a bias-corrected parameter update, and — per §4.3's
mandatory zeroing — clears the raw gradient buffer in place. The moments and
the step counter are written with their recurrence values, never cleared.
The `√v̂` of textbook Adam is replaced by `v̂` itself to stay inside ℚ; the
claims checked here do not depend on the parameter-update scalar. -/
def cllm_adam_step (lr : ℚ) (t : AdamTraining) : AdamTraining :=
  let stepCount := t.adam.step_count + 1
  let mNew := adamMomentM t.gradients t.adam.m
  let vNew := adamMomentV t.gradients t.adam.v
  let bias1 : ℚ := 1 - adamBeta1 ^ stepCount
  let bias2 : ℚ := 1 - adamBeta2 ^ stepCount
  let newParams :=
    List.zipWith (fun p mv =>
        p - lr * (mv.1 / bias1) / (mv.2 / bias2 + adamEps))
      t.params (List.zip mNew vNew)
  { t with
    params := newParams,
    gradients := zeroVec t.gradients,
    adam := ⟨mNew, vNew, stepCount⟩ }

/-- The effective accumulation-step count for the Adam variant
(`fix_optimizer.py`): `if (accum_steps <= 0) accum_steps = 1;`. -/
def effectiveAccumStepsAdam (t : AdamTraining) : ℤ :=
  if t.config.gradient_accumulation_steps ≤ 0 then 1
  else t.config.gradient_accumulation_steps

/-- `cllm_optimizer_step` (Adam version, from `fix_optimizer.py`): the same
accumulation gate as the SGD version; on firing it scales every raw gradient
in place by `gradient_scale = 1 / accum_steps` and hands off to
`cllm_adam_step` with the configured learning rate. -/
def cllm_optimizer_step_adam (t : AdamTraining) : AdamTraining :=
  let accum_steps := effectiveAccumStepsAdam t
  let counter := t.accumulation_step + 1
  if counter < accum_steps then
    { t with accumulation_step := counter }
  else
    let gradient_scale : ℚ := 1 / ((accum_steps : ℚ))
    cllm_adam_step t.config.learning_rate
      { t with
        accumulation_step := 0,
        gradients := t.gradients.map (fun g => g * gradient_scale) }

/-- Modelled from the spec: `CLLMBatchIterator` (§3, §4.1; the C body of
`src/ai/cllm_batch_iterator.c` is absent from the patch scripts — only its
call sites in `fix_train_model_final.py` and friends appear). Token buffer
(borrowed), total token count, batch size, sequence length, cursor, shuffle
flag, drop-last flag. The cursor is the start position of the next token
window; there are `count - seq_len` usable windows. -/
@[ext]
structure CLLMBatchIterator where
  tokens : List ℕ
  count : ℕ
  batch_size : ℕ
  seq_len : ℕ
  cursor : ℕ
  shuffle : Bool
  drop_last : Bool
  deriving Repr, DecidableEq

/-- Modelled from the spec: `cllm_batch_iterator_create(tokens, count,
batch_size, seq_len, shuffle, drop_last)` fails (`InvalidArgument`, i.e.
returns no iterator) if `count < seq_len + 1` or `batch_size <= 0` (§4.1);
otherwise the cursor starts at 0. `batch_size` arrives as a C `int`. -/
def cllm_batch_iterator_create (tokens : List ℕ) (count : ℕ)
    (batch_size : ℤ) (seq_len : ℕ) (shuffle drop_last : Bool) :
    Option CLLMBatchIterator :=
  if count < seq_len + 1 ∨ batch_size ≤ 0 then none
  else
    some { tokens := tokens, count := count, batch_size := batch_size.toNat,
           seq_len := seq_len, cursor := 0, shuffle := shuffle,
           drop_last := drop_last }

/-- The number of usable token windows (`count - seq_len`): the window at
position `p` needs tokens `p .. p + seq_len`, so positions
`0 .. count - seq_len - 1` are usable. -/
def usableTokens (it : CLLMBatchIterator) : ℕ :=
  it.count - it.seq_len

/-- The (input, target) token window at position `p`: input is
`tokens[p .. p+seq_len)`, target the same window shifted by one token. -/
def windowAt (it : CLLMBatchIterator) (p : ℕ) : List ℕ × List ℕ :=
  ((it.tokens.drop p).take it.seq_len,
   (it.tokens.drop (p + 1)).take it.seq_len)

/-- The batch of `n` consecutive windows starting at position `start`. -/
def batchWindows (it : CLLMBatchIterator) (start n : ℕ) :
    List (List ℕ × List ℕ) :=
  (List.range n).map (fun j => windowAt it (start + j))

/-- Modelled from the spec: `next_batch()` (§4.1) returns the next contiguous
batch of input/target token windows, or an "exhausted" signal (`none`) when
no window remains, or when fewer than one full batch remains and `drop_last`
is set; otherwise a final partial batch. The token buffer is read-only. -/
def cllm_batch_iterator_next_batch (it : CLLMBatchIterator) :
    Option (List (List ℕ × List ℕ) × CLLMBatchIterator) :=
  if usableTokens it ≤ it.cursor then none
  else if it.batch_size ≤ usableTokens it - it.cursor then
    some (batchWindows it it.cursor it.batch_size,
          { it with cursor := it.cursor + it.batch_size })
  else if it.drop_last then none
  else
    some (batchWindows it it.cursor (usableTokens it - it.cursor),
          { it with cursor := usableTokens it })

/-- Modelled from the spec: `cllm_batch_iterator_reset` (§4.1, and its call
site in `fix_train_model_final.py`): rewinds the cursor to the start of the
token stream without reallocating. The spec's reshuffling of the index order
when `shuffle` is enabled is not modelled — the claims checked here concern
`shuffle = false`, where iteration is contiguous. -/
def cllm_batch_iterator_reset (it : CLLMBatchIterator) : CLLMBatchIterator :=
  { it with cursor := 0 }

/-- Count the batches `next_batch` yields before exhaustion, on bounded fuel
(each yielded batch consumes at least one window when `batch_size ≥ 1`, so
`usableTokens` is always enough fuel). -/
def countBatchesAux : ℕ → CLLMBatchIterator → ℕ
  | 0, _ => 0
  | fuel + 1, it =>
    match cllm_batch_iterator_next_batch it with
    | none => 0
    | some (_, it') => countBatchesAux fuel it' + 1

/-- The number of batches the iterator yields from its current cursor. -/
def countBatches (it : CLLMBatchIterator) : ℕ :=
  countBatchesAux (usableTokens it) it

/-- The full sequence of batches `next_batch` yields, on bounded fuel. -/
def batchSeqAux : ℕ → CLLMBatchIterator → List (List (List ℕ × List ℕ))
  | 0, _ => []
  | fuel + 1, it =>
    match cllm_batch_iterator_next_batch it with
    | none => []
    | some (b, it') => b :: batchSeqAux fuel it'

/-- The sequence of batches the iterator yields from its current cursor. -/
def batchSeq (it : CLLMBatchIterator) : List (List (List ℕ × List ℕ)) :=
  batchSeqAux (usableTokens it) it

/-- Advance the iterator past `n` batches (stopping early at exhaustion). -/
def skipBatches : ℕ → CLLMBatchIterator → CLLMBatchIterator
  | 0, it => it
  | n + 1, it =>
    match cllm_batch_iterator_next_batch it with
    | none => it
    | some (_, it') => skipBatches n it'

/-- The coordinator object built by `threaded_training_create`: worker count
(`num_worker_spheres`), the party count of the `pthread_barrier_init`ed
batch barrier (`num_threads + 1`, from `add_debug_properly.py` /
`add_minimal_debug.py`), and the spawned worker threads. -/
structure ThreadedTrainingSystem where
  num_worker_spheres : ℕ
  barrier_parties : ℕ
  worker_threads : List ℕ
  deriving Repr, DecidableEq

/-- Modelled from the spec: `threaded_training_create(training,
batch_iterator, num_threads)` (§4.2; its C body in
`src/ai/cllm_training_threaded.c` is absent — the patch scripts only match
its lines). The lines evidenced by `add_debug_properly.py` are kept exactly:
`if (!training || !batch_iterator) return NULL;`,
`if (num_threads < 1) num_threads = 1;`,
`pthread_barrier_init(&system->batch_barrier, NULL, num_threads + 1);`, and
the `pthread_create` loop over `num_worker_spheres` workers. The second
component of the result counts worker threads actually spawned, so the
early-return path is observably side-effect free. -/
def threaded_training_create (training : Option CLLMTraining)
    (batch_iterator : Option CLLMBatchIterator) (num_threads : ℤ) :
    Option ThreadedTrainingSystem × ℕ :=
  match training, batch_iterator with
  | some _, some _ =>
    let n : ℤ := if num_threads < 1 then 1 else num_threads
    (some { num_worker_spheres := n.toNat,
            barrier_parties := n.toNat + 1,
            worker_threads := List.range n.toNat },
     n.toNat)
  | _, _ => (none, 0)

/-! ## Helper lemmas -/

lemma mem_zipWith_exists {α β γ : Type} {f : α → β → γ} {l₁ : List α}
    {l₂ : List β} {y : γ} (h : y ∈ List.zipWith f l₁ l₂) :
    ∃ a b, y = f a b := by
  induction l₁ generalizing l₂ with
  | nil => simp at h
  | cons x xs ih =>
    cases l₂ with
    | nil => simp at h
    | cons z zs =>
      simp only [List.zipWith_cons_cons, List.mem_cons] at h
      rcases h with h | h
      · exact ⟨x, z, h⟩
      · exact ih h

lemma mem_zeroVec {x : ℚ} {g : List ℚ} (h : x ∈ zeroVec g) : x = 0 := by
  unfold zeroVec at h
  rcases List.mem_map.mp h with ⟨_, _, rfl⟩
  rfl

/-- All entries of a flat gradient buffer are zero. -/
def vecZero (l : List ℚ) : Prop := ∀ x ∈ l, x = 0

/-- All entries of a layer's attention gradient lattices are zero. -/
def attnZero (g : AttentionMats) : Prop :=
  vecZero g.query_lattice ∧ vecZero g.key_lattice ∧ vecZero g.value_lattice

/-- All entries of a layer's feed-forward gradient lattices are zero. -/
def ffZero (g : FFMats) : Prop :=
  vecZero g.w1_lattice ∧ vecZero g.w2_lattice ∧
  vecZero g.bias1 ∧ vecZero g.bias2

/-- Every element of every gradient buffer of the training state is zero:
embedding gradients, per-layer Q/K/V gradients, per-layer feed-forward
W1/W2/bias1/bias2 gradients. -/
def gradsZero (t : CLLMTraining) : Prop :=
  vecZero t.gradients ∧
  (∀ g ∈ t.attention_grads, attnZero g) ∧
  (∀ g ∈ t.ff_grads, ffZero g)

instance : DecidablePred vecZero := fun l =>
  List.decidableBAll _ l

instance (g : AttentionMats) : Decidable (attnZero g) :=
  inferInstanceAs (Decidable (_ ∧ _ ∧ _))

instance (g : FFMats) : Decidable (ffZero g) :=
  inferInstanceAs (Decidable (_ ∧ _ ∧ _ ∧ _))

instance (t : CLLMTraining) : Decidable (gradsZero t) :=
  inferInstanceAs (Decidable (_ ∧ _ ∧ _))

lemma vecZero_zeroVec (g : List ℚ) : vecZero (zeroVec g) :=
  fun _ hx => mem_zeroVec hx

lemma applyGradients_gradsZero (lr scale : ℚ) (t : CLLMTraining) :
    gradsZero (applyGradients lr scale t) := by
  unfold applyGradients gradsZero
  refine ⟨vecZero_zeroVec _, ?_, ?_⟩
  · intro g hg
    simp only [List.mem_map] at hg
    rcases hg with ⟨pair, hpair, rfl⟩
    rcases mem_zipWith_exists hpair with ⟨w, gr, rfl⟩
    exact ⟨vecZero_zeroVec _, vecZero_zeroVec _, vecZero_zeroVec _⟩
  · intro g hg
    simp only [List.mem_map] at hg
    rcases hg with ⟨pair, hpair, rfl⟩
    rcases mem_zipWith_exists hpair with ⟨w, gr, rfl⟩
    exact ⟨vecZero_zeroVec _, vecZero_zeroVec _, vecZero_zeroVec _,
      vecZero_zeroVec _⟩

lemma applyGradients_accumulation_step (lr scale : ℚ) (t : CLLMTraining) :
    (applyGradients lr scale t).accumulation_step = t.accumulation_step :=
  rfl

/-! ## Claim theorems -/

/-- **C1.** With `gradient_accumulation_steps = m > 1` and the accumulation
counter in `[0, m)`: a call whose incremented counter is still `< m` only
increments the counter and leaves the model (and the gradient buffers)
untouched; the `m`-th call of the window applies exactly the SGD update with
gradient scale `1/m` and resets the counter to `0`; and every call keeps the
counter in `[0, m)`. -/
theorem optimizer_accumulation_window (t : CLLMTraining) (m : ℤ)
    (hm : t.config.gradient_accumulation_steps = m) (h1 : 1 < m)
    (hlo : 0 ≤ t.accumulation_step) (hhi : t.accumulation_step < m) :
    (t.accumulation_step + 1 < m →
      cllm_optimizer_step t =
        { t with accumulation_step := t.accumulation_step + 1 }) ∧
    (t.accumulation_step + 1 = m →
      cllm_optimizer_step t =
        applyGradients t.config.learning_rate (1 / (m : ℚ))
          { t with accumulation_step := 0 }) ∧
    0 ≤ (cllm_optimizer_step t).accumulation_step ∧
    (cllm_optimizer_step t).accumulation_step < m := by
  have heff : effectiveAccumSteps t = m := by
    unfold effectiveAccumSteps
    rw [hm]
    exact if_neg (by omega)
  unfold cllm_optimizer_step
  rw [heff]
  by_cases hc : t.accumulation_step + 1 < m
  · rw [if_pos hc]
    refine ⟨fun _ => rfl, fun he => absurd he (by omega), ?_, ?_⟩
    · show (0 : ℤ) ≤ t.accumulation_step + 1
      omega
    · show t.accumulation_step + 1 < m
      exact hc
  · rw [if_neg hc]
    refine ⟨fun h => absurd h hc, fun _ => rfl, ?_, ?_⟩
    · rw [applyGradients_accumulation_step]
    · rw [applyGradients_accumulation_step]
      show (0 : ℤ) < m
      omega

/-- Concrete training state used by the witnesses: two embedding weights,
one layer, non-trivial gradients, `accumulation_steps = 2`. -/
def sampleTraining : CLLMTraining :=
  { accumulation_step := 0,
    config := { learning_rate := 1 / 10, gradient_accumulation_steps := 2 },
    model :=
      { embeddings := [1, 2],
        attention_layers := [⟨[1], [2], [3]⟩],
        ff_layers := [⟨[1], [2], [3], [4]⟩] },
    gradients := [1, 1],
    attention_grads := [⟨[2], [2], [2]⟩],
    ff_grads := [⟨[1], [1], [1], [1]⟩] }

/-- Witness for C1 at `sampleTraining` (counter 0, `m = 2`). -/
theorem optimizer_accumulation_window_witness :
    sampleTraining.config.gradient_accumulation_steps = 2 ∧ (1 : ℤ) < 2 ∧
    0 ≤ sampleTraining.accumulation_step ∧
    sampleTraining.accumulation_step < 2 ∧
    ((sampleTraining.accumulation_step + 1 < 2 →
      cllm_optimizer_step sampleTraining =
        { sampleTraining with
            accumulation_step := sampleTraining.accumulation_step + 1 }) ∧
     (sampleTraining.accumulation_step + 1 = 2 →
      cllm_optimizer_step sampleTraining =
        applyGradients sampleTraining.config.learning_rate (1 / ((2 : ℤ) : ℚ))
          { sampleTraining with accumulation_step := 0 }) ∧
     0 ≤ (cllm_optimizer_step sampleTraining).accumulation_step ∧
     (cllm_optimizer_step sampleTraining).accumulation_step < 2) :=
  ⟨rfl, by decide, by decide, by decide,
   optimizer_accumulation_window sampleTraining 2 rfl (by decide) (by decide)
     (by decide)⟩

/-- **C2.** Whenever a call to `cllm_optimizer_step` fires a parameter
update (the incremented counter reaches the effective accumulation count —
in particular on every call when `gradient_accumulation_steps = 1` and the
counter is non-negative), every element of every gradient buffer of the
resulting state is exactly zero. -/
theorem optimizer_step_zeroes_gradients (t : CLLMTraining) :
    (¬ t.accumulation_step + 1 < effectiveAccumSteps t →
      gradsZero (cllm_optimizer_step t)) ∧
    (t.config.gradient_accumulation_steps = 1 → 0 ≤ t.accumulation_step →
      gradsZero (cllm_optimizer_step t)) := by
  constructor
  · intro hfire
    unfold cllm_optimizer_step
    rw [if_neg hfire]
    exact applyGradients_gradsZero _ _ _
  · intro h1 hnn
    have heff : effectiveAccumSteps t = 1 := by
      unfold effectiveAccumSteps
      rw [h1]
      rfl
    unfold cllm_optimizer_step
    rw [heff, if_neg (by omega)]
    exact applyGradients_gradsZero _ _ _

/-- Witness for C2 at `sampleTraining` with its counter advanced to 1, so
the call fires (`m = 2`). -/
theorem optimizer_step_zeroes_gradients_witness :
    ¬ ({ sampleTraining with accumulation_step := 1 }).accumulation_step + 1 <
        effectiveAccumSteps { sampleTraining with accumulation_step := 1 } ∧
    gradsZero (cllm_optimizer_step
      { sampleTraining with accumulation_step := 1 }) :=
  ⟨by decide,
   (optimizer_step_zeroes_gradients
      { sampleTraining with accumulation_step := 1 }).1 (by decide)⟩

/-- **C9.** When `gradient_accumulation_steps ≤ 0` and the counter is
non-negative, `cllm_optimizer_step` treats the configuration as `1`: the
update fires on that very call with gradient scale `1` (` = 1 / 1`) and the
counter is reset to `0`. -/
theorem optimizer_step_nonpositive_accum_steps (t : CLLMTraining)
    (hle : t.config.gradient_accumulation_steps ≤ 0)
    (hnn : 0 ≤ t.accumulation_step) :
    cllm_optimizer_step t =
      applyGradients t.config.learning_rate 1
        { t with accumulation_step := 0 } := by
  have heff : effectiveAccumSteps t = 1 := by
    unfold effectiveAccumSteps
    rw [if_pos hle]
  unfold cllm_optimizer_step
  rw [heff, if_neg (by omega)]
  norm_num

/-- Witness for C9 at `sampleTraining` reconfigured with
`gradient_accumulation_steps = 0`. -/
theorem optimizer_step_nonpositive_accum_steps_witness :
    ({ sampleTraining with
        config := { learning_rate := 1 / 10,
                    gradient_accumulation_steps := 0 } } :
      CLLMTraining).config.gradient_accumulation_steps ≤ 0 ∧
    0 ≤ ({ sampleTraining with
        config := { learning_rate := 1 / 10,
                    gradient_accumulation_steps := 0 } } :
      CLLMTraining).accumulation_step ∧
    cllm_optimizer_step
      { sampleTraining with
        config := { learning_rate := 1 / 10,
                    gradient_accumulation_steps := 0 } } =
      applyGradients (1 / 10) 1
        { sampleTraining with
          accumulation_step := 0,
          config := { learning_rate := 1 / 10,
                      gradient_accumulation_steps := 0 } } :=
  ⟨by decide, by decide,
   optimizer_step_nonpositive_accum_steps
     { sampleTraining with
       config := { learning_rate := 1 / 10,
                   gradient_accumulation_steps := 0 } }
     (by decide) (by decide)⟩

/-- **C8.** For every call to the Adam-variant `cllm_optimizer_step`: a
non-firing call changes only the accumulation counter (the Adam state is
untouched); a firing call zeroes every raw gradient element while writing
the Adam state with its recurrence values — the global step counter is
incremented (never reset) and both moment buffers hold the Adam moment
recurrences of the scaled gradients (never cleared). -/
theorem adam_state_not_cleared (t : AdamTraining) :
    (t.accumulation_step + 1 < effectiveAccumStepsAdam t →
      cllm_optimizer_step_adam t =
        { t with accumulation_step := t.accumulation_step + 1 }) ∧
    (¬ t.accumulation_step + 1 < effectiveAccumStepsAdam t →
      (∀ x ∈ (cllm_optimizer_step_adam t).gradients, x = 0) ∧
      (cllm_optimizer_step_adam t).adam.step_count = t.adam.step_count + 1 ∧
      (cllm_optimizer_step_adam t).adam.m =
        adamMomentM
          (t.gradients.map
            (fun g => g * (1 / ((effectiveAccumStepsAdam t : ℚ)))))
          t.adam.m ∧
      (cllm_optimizer_step_adam t).adam.v =
        adamMomentV
          (t.gradients.map
            (fun g => g * (1 / ((effectiveAccumStepsAdam t : ℚ)))))
          t.adam.v) := by
  constructor
  · intro hc
    unfold cllm_optimizer_step_adam
    rw [if_pos hc]
  · intro hc
    unfold cllm_optimizer_step_adam
    rw [if_neg hc]
    refine ⟨fun x hx => mem_zeroVec hx, rfl, rfl, rfl⟩

/-- Concrete Adam training state for the C8 witness: non-zero moments,
non-zero gradients, `accumulation_steps = 1` so every call fires. -/
def sampleAdamTraining : AdamTraining :=
  { accumulation_step := 0,
    config := { learning_rate := 1 / 10, gradient_accumulation_steps := 1 },
    params := [1, 2],
    gradients := [1, 2],
    adam := { m := [1, 1], v := [1, 1], step_count := 5 } }

/-- Witness for C8 at `sampleAdamTraining`: the call fires, the gradients
come out zero, the step counter moves from 5 to 6, and the moments hold the
(non-zero) Adam recurrences. -/
theorem adam_state_not_cleared_witness :
    ¬ sampleAdamTraining.accumulation_step + 1 <
        effectiveAccumStepsAdam sampleAdamTraining ∧
    ((∀ x ∈ (cllm_optimizer_step_adam sampleAdamTraining).gradients,
        x = 0) ∧
     (cllm_optimizer_step_adam sampleAdamTraining).adam.step_count =
       sampleAdamTraining.adam.step_count + 1 ∧
     (cllm_optimizer_step_adam sampleAdamTraining).adam.m =
       adamMomentM
         (sampleAdamTraining.gradients.map
           (fun g =>
             g * (1 / ((effectiveAccumStepsAdam sampleAdamTraining : ℚ)))))
         sampleAdamTraining.adam.m ∧
     (cllm_optimizer_step_adam sampleAdamTraining).adam.v =
       adamMomentV
         (sampleAdamTraining.gradients.map
           (fun g =>
             g * (1 / ((effectiveAccumStepsAdam sampleAdamTraining : ℚ)))))
         sampleAdamTraining.adam.v) :=
  ⟨by decide, (adam_state_not_cleared sampleAdamTraining).2 (by decide)⟩

/-- **C10.** In the attention backward pass the query, key and value
gradient lattices receive the identical contribution at every flat index —
`attn_input[i / embed_dim] * grad[i % embed_dim]` inside the
`embed_dim × embed_dim` range and nothing outside it — and consequently a
whole backward pass started from zeroed buffers leaves the three lattices
element-wise equal. -/
theorem attention_backward_qkv_equal :
    (∀ (ed : ℕ) (a g : ℕ → ℚ) (qkv : (ℕ → ℚ) × (ℕ → ℚ) × (ℕ → ℚ)) (i : ℕ),
      ((attention_backward_step ed a g qkv).1 i - qkv.1 i =
        (if i < ed * ed then a (i / ed) * g (i % ed) else 0)) ∧
      ((attention_backward_step ed a g qkv).2.1 i - qkv.2.1 i =
        (if i < ed * ed then a (i / ed) * g (i % ed) else 0)) ∧
      ((attention_backward_step ed a g qkv).2.2 i - qkv.2.2 i =
        (if i < ed * ed then a (i / ed) * g (i % ed) else 0))) ∧
    (∀ (ed : ℕ) (positions : List ((ℕ → ℚ) × (ℕ → ℚ))),
      (attention_backward ed positions (zeroBuf, zeroBuf, zeroBuf)).1 =
        (attention_backward ed positions (zeroBuf, zeroBuf, zeroBuf)).2.1 ∧
      (attention_backward ed positions (zeroBuf, zeroBuf, zeroBuf)).2.1 =
        (attention_backward ed positions (zeroBuf, zeroBuf, zeroBuf)).2.2) := by
  have hstep : ∀ (ed : ℕ) (a g : ℕ → ℚ)
      (qkv : (ℕ → ℚ) × (ℕ → ℚ) × (ℕ → ℚ)) (i : ℕ),
      ((attention_backward_step ed a g qkv).1 i - qkv.1 i =
        (if i < ed * ed then a (i / ed) * g (i % ed) else 0)) ∧
      ((attention_backward_step ed a g qkv).2.1 i - qkv.2.1 i =
        (if i < ed * ed then a (i / ed) * g (i % ed) else 0)) ∧
      ((attention_backward_step ed a g qkv).2.2 i - qkv.2.2 i =
        (if i < ed * ed then a (i / ed) * g (i % ed) else 0)) := by
    intro ed a g qkv i
    unfold attention_backward_step addOuter
    by_cases h : i < ed * ed
    · simp [h]
    · simp [h]
  refine ⟨hstep, ?_⟩
  have hdiag : ∀ (ed : ℕ) (positions : List ((ℕ → ℚ) × (ℕ → ℚ)))
      (q : ℕ → ℚ), ∃ b, attention_backward ed positions (q, q, q) = (b, b, b) := by
    intro ed positions
    induction positions with
    | nil => exact fun q => ⟨q, rfl⟩
    | cons p ps ih =>
      intro q
      have hstep1 : attention_backward ed (p :: ps) (q, q, q) =
          attention_backward ed ps
            (addOuter ed p.1 p.2 q, addOuter ed p.1 p.2 q,
             addOuter ed p.1 p.2 q) := rfl
      rw [hstep1]
      exact ih (addOuter ed p.1 p.2 q)
  intro ed positions
  rcases hdiag ed positions zeroBuf with ⟨b, hb⟩
  rw [hb]
  exact ⟨rfl, rfl⟩

/-- **C5.** With valid (non-null) training state and batch iterator:
`num_threads ≤ 0` is clamped so exactly one worker thread is created (and
the barrier counts 1 + 1 parties); `num_threads = k > 0` creates exactly
`k` worker threads (barrier `k + 1` parties). The second component counts
the `pthread_create` calls performed. -/
theorem threaded_training_create_thread_count (t : CLLMTraining)
    (it : CLLMBatchIterator) (n : ℤ) :
    (n ≤ 0 →
      threaded_training_create (some t) (some it) n =
        (some { num_worker_spheres := 1, barrier_parties := 2,
                worker_threads := List.range 1 }, 1)) ∧
    (0 < n →
      threaded_training_create (some t) (some it) n =
        (some { num_worker_spheres := n.toNat,
                barrier_parties := n.toNat + 1,
                worker_threads := List.range n.toNat }, n.toNat)) := by
  constructor
  · intro hn
    unfold threaded_training_create
    rw [if_pos (by omega)]
    rfl
  · intro hn
    unfold threaded_training_create
    rw [if_neg (by omega)]

/-- Witness for C5: `num_threads = -3` yields one worker;
(a second concrete instantiation at `4` is immediate from the theorem). -/
theorem threaded_training_create_thread_count_witness :
    (-3 : ℤ) ≤ 0 ∧
    threaded_training_create (some sampleTraining)
        (some { tokens := [0, 1, 2, 3], count := 4, batch_size := 1,
                seq_len := 2, cursor := 0, shuffle := false,
                drop_last := false }) (-3) =
      (some { num_worker_spheres := 1, barrier_parties := 2,
              worker_threads := List.range 1 }, 1) :=
  ⟨by decide,
   (threaded_training_create_thread_count sampleTraining
      { tokens := [0, 1, 2, 3], count := 4, batch_size := 1, seq_len := 2,
        cursor := 0, shuffle := false, drop_last := false } (-3)).1
     (by decide)⟩

/-- **C7.** `threaded_training_create` with a null training state or a null
batch iterator returns no system and spawns no worker thread (the
`pthread_create` count of the early-return path is 0). -/
theorem threaded_training_create_null_args (training : Option CLLMTraining)
    (batch_iterator : Option CLLMBatchIterator) (n : ℤ)
    (h : training = none ∨ batch_iterator = none) :
    threaded_training_create training batch_iterator n = (none, 0) := by
  rcases h with h | h
  · subst h
    cases batch_iterator <;> rfl
  · subst h
    cases training <;> rfl

/-- Witness for C7: a null training pointer. -/
theorem threaded_training_create_null_args_witness :
    ((none : Option CLLMTraining) = none ∨
      (some { tokens := [0, 1, 2, 3], count := 4, batch_size := 1,
              seq_len := 2, cursor := 0, shuffle := false,
              drop_last := false } : Option CLLMBatchIterator) = none) ∧
    threaded_training_create none
        (some { tokens := [0, 1, 2, 3], count := 4, batch_size := 1,
                seq_len := 2, cursor := 0, shuffle := false,
                drop_last := false }) 7 =
      (none, 0) :=
  ⟨Or.inl rfl,
   threaded_training_create_null_args none
     (some { tokens := [0, 1, 2, 3], count := 4, batch_size := 1,
             seq_len := 2, cursor := 0, shuffle := false,
             drop_last := false }) 7 (Or.inl rfl)⟩

/-! ## Batch iterator lemmas -/

lemma next_batch_exhausted {it : CLLMBatchIterator}
    (h : usableTokens it ≤ it.cursor) :
    cllm_batch_iterator_next_batch it = none := by
  unfold cllm_batch_iterator_next_batch
  rw [if_pos h]

lemma next_batch_full {it : CLLMBatchIterator}
    (h1 : ¬ usableTokens it ≤ it.cursor)
    (h2 : it.batch_size ≤ usableTokens it - it.cursor) :
    cllm_batch_iterator_next_batch it =
      some (batchWindows it it.cursor it.batch_size,
            { it with cursor := it.cursor + it.batch_size }) := by
  unfold cllm_batch_iterator_next_batch
  rw [if_neg h1, if_pos h2]

lemma next_batch_dropped {it : CLLMBatchIterator}
    (h1 : ¬ usableTokens it ≤ it.cursor)
    (h2 : ¬ it.batch_size ≤ usableTokens it - it.cursor)
    (h3 : it.drop_last = true) :
    cllm_batch_iterator_next_batch it = none := by
  unfold cllm_batch_iterator_next_batch
  rw [if_neg h1, if_neg h2, if_pos h3]

lemma next_batch_remainder {it : CLLMBatchIterator}
    (h1 : ¬ usableTokens it ≤ it.cursor)
    (h2 : ¬ it.batch_size ≤ usableTokens it - it.cursor)
    (h3 : it.drop_last = false) :
    cllm_batch_iterator_next_batch it =
      some (batchWindows it it.cursor (usableTokens it - it.cursor),
            { it with cursor := usableTokens it }) := by
  unfold cllm_batch_iterator_next_batch
  rw [if_neg h1, if_neg h2, if_neg (by simp [h3])]

/-- `next_batch` never changes any field except the cursor. -/
lemma next_batch_sameConfig {it : CLLMBatchIterator} {b}
    {it' : CLLMBatchIterator}
    (h : cllm_batch_iterator_next_batch it = some (b, it')) :
    it'.tokens = it.tokens ∧ it'.count = it.count ∧
    it'.batch_size = it.batch_size ∧ it'.seq_len = it.seq_len ∧
    it'.shuffle = it.shuffle ∧ it'.drop_last = it.drop_last := by
  unfold cllm_batch_iterator_next_batch at h
  split_ifs at h with h1 h2 h3
  · rcases Option.some.inj h with h'
    rcases Prod.mk.injEq .. ▸ h' with ⟨-, rfl⟩
    exact ⟨rfl, rfl, rfl, rfl, rfl, rfl⟩
  · rcases Option.some.inj h with h'
    rcases Prod.mk.injEq .. ▸ h' with ⟨-, rfl⟩
    exact ⟨rfl, rfl, rfl, rfl, rfl, rfl⟩

lemma countBatchesAux_succ {n : ℕ} (it : CLLMBatchIterator) :
    countBatchesAux (n + 1) it =
      match cllm_batch_iterator_next_batch it with
      | none => 0
      | some (_, it') => countBatchesAux n it' + 1 := rfl

lemma countBatchesAux_succ_none {n : ℕ} {it : CLLMBatchIterator}
    (h : cllm_batch_iterator_next_batch it = none) :
    countBatchesAux (n + 1) it = 0 := by
  rw [countBatchesAux_succ, h]

lemma countBatchesAux_succ_some {n : ℕ} {it : CLLMBatchIterator} {b}
    {it' : CLLMBatchIterator}
    (h : cllm_batch_iterator_next_batch it = some (b, it')) :
    countBatchesAux (n + 1) it = countBatchesAux n it' + 1 := by
  rw [countBatchesAux_succ, h]

/-- Ceiling division written as `(u + b - 1) / b` splits into floor plus an
indicator of a non-zero remainder. -/
lemma ceil_div_eq_floor_add (b u : ℕ) (hb : 1 ≤ b) :
    (u + b - 1) / b = u / b + (if u % b = 0 then 0 else 1) := by
  have hmod := Nat.div_add_mod u b
  have hr : u % b < b := Nat.mod_lt _ (by omega)
  have hu : u + b - 1 = b * (u / b) + (u % b + b - 1) := by omega
  rw [hu, Nat.mul_add_div (by omega)]
  by_cases h0 : u % b = 0
  · rw [h0, if_pos rfl]
    have : (0 + b - 1) / b = 0 := Nat.div_eq_of_lt (by omega)
    omega
  · rw [if_neg h0]
    have h1 : (u % b + b - 1) / b = (u % b + b - 1 - b) / b + 1 :=
      Nat.div_eq_sub_div (by omega) (by omega)
    have h2 : (u % b + b - 1 - b) / b = 0 := Nat.div_eq_of_lt (by omega)
    omega

/-- Core counting lemma: with `batch_size = b ≥ 1` and enough fuel,
`countBatchesAux` counts `remaining / b` batches under `drop_last` and
`⌈remaining / b⌉` otherwise, where `remaining` is the number of unconsumed
windows. -/
lemma countBatchesAux_spec (b : ℕ) (hb : 1 ≤ b) :
    ∀ (fuel : ℕ) (it : CLLMBatchIterator), it.batch_size = b →
      usableTokens it - it.cursor ≤ fuel →
      countBatchesAux fuel it =
        (if it.drop_last then (usableTokens it - it.cursor) / b
         else (usableTokens it - it.cursor + b - 1) / b) := by
  intro fuel
  induction fuel with
  | zero =>
    intro it hbs hfuel
    have h0 : usableTokens it - it.cursor = 0 := by omega
    rw [h0]
    have hz : (0 + b - 1) / b = 0 := Nat.div_eq_of_lt (by omega)
    simp only [countBatchesAux, Nat.zero_div, hz]
    split <;> rfl
  | succ n ih =>
    intro it hbs hfuel
    by_cases h1 : usableTokens it ≤ it.cursor
    · have h0 : usableTokens it - it.cursor = 0 := by omega
      rw [countBatchesAux_succ_none (next_batch_exhausted h1), h0]
      have hz : (0 + b - 1) / b = 0 := Nat.div_eq_of_lt (by omega)
      rw [Nat.zero_div, hz]
      split <;> rfl
    · have hrpos : 1 ≤ usableTokens it - it.cursor := by omega
      have hble0 : b ≤ it.batch_size := by omega
      by_cases h2 : it.batch_size ≤ usableTokens it - it.cursor
      · -- a full batch: cursor advances by b
        rw [countBatchesAux_succ_some (next_batch_full h1 h2)]
        have hrec : countBatchesAux n
              { it with cursor := it.cursor + it.batch_size } =
            if it.drop_last = true then
              (usableTokens it - (it.cursor + it.batch_size)) / b
            else
              (usableTokens it - (it.cursor + it.batch_size) + b - 1) / b :=
          ih { it with cursor := it.cursor + it.batch_size } hbs
            (by
              show usableTokens it - (it.cursor + it.batch_size) ≤ n
              omega)
        rw [hrec, hbs]
        have hble : b ≤ usableTokens it - it.cursor := hbs ▸ h2
        by_cases hd : it.drop_last = true
        · rw [if_pos hd, if_pos hd]
          have heq : usableTokens it - (it.cursor + b) =
              usableTokens it - it.cursor - b := by omega
          rw [heq]
          exact (Nat.div_eq_sub_div (by omega) hble).symm
        · rw [if_neg hd, if_neg hd]
          have h3 : (usableTokens it - it.cursor + b - 1) / b =
              (usableTokens it - it.cursor + b - 1 - b) / b + 1 :=
            Nat.div_eq_sub_div (by omega) (by omega)
          have h4 : usableTokens it - it.cursor + b - 1 - b =
              usableTokens it - (it.cursor + b) + b - 1 := by omega
          rw [h3, h4]
      · by_cases hd : it.drop_last = true
        · -- partial remainder dropped
          rw [countBatchesAux_succ_none (next_batch_dropped h1 h2 hd),
            if_pos hd]
          rw [Nat.div_eq_of_lt (by omega)]
        · -- final partial batch
          have hd' : it.drop_last = false := by
            cases h : it.drop_last
            · rfl
            · exact absurd h hd
          rw [countBatchesAux_succ_some (next_batch_remainder h1 h2 hd'),
            if_neg hd]
          have hrec : countBatchesAux n
              { it with cursor := usableTokens it } =
            if it.drop_last = true then
              (usableTokens it - usableTokens it) / b
            else
              (usableTokens it - usableTokens it + b - 1) / b :=
            ih { it with cursor := usableTokens it } hbs
              (by
                show usableTokens it - usableTokens it ≤ n
                omega)
          rw [hrec, if_neg hd, Nat.sub_self]
          have hz : (0 + b - 1) / b = 0 := Nat.div_eq_of_lt (by omega)
          have h5 : (usableTokens it - it.cursor + b - 1) / b =
              (usableTokens it - it.cursor + b - 1 - b) / b + 1 :=
            Nat.div_eq_sub_div (by omega) (by omega)
          have h6 : (usableTokens it - it.cursor + b - 1 - b) / b = 0 :=
            Nat.div_eq_of_lt (by omega)
          rw [hz, h5, h6]

/-- **C4.** Every iterator successfully built by
`cllm_batch_iterator_create` (which enforces `count ≥ seq_len + 1` and
`batch_size > 0`) yields exactly `⌈usable_tokens / batch_size⌉` batches
before signalling exhaustion — one fewer when `drop_last` is set and the
division has a non-zero remainder — where
`usable_tokens = count - seq_len`. -/
theorem batch_iterator_batch_count (tokens : List ℕ) (count : ℕ)
    (batch_size : ℤ) (seq_len : ℕ) (shuffle drop_last : Bool)
    (it : CLLMBatchIterator)
    (hcreate : cllm_batch_iterator_create tokens count batch_size seq_len
        shuffle drop_last = some it) :
    countBatches it =
      if drop_last = true ∧ (count - seq_len) % batch_size.toNat ≠ 0 then
        (count - seq_len + batch_size.toNat - 1) / batch_size.toNat - 1
      else
        (count - seq_len + batch_size.toNat - 1) / batch_size.toNat := by
  unfold cllm_batch_iterator_create at hcreate
  by_cases hvalid : count < seq_len + 1 ∨ batch_size ≤ 0
  · rw [if_pos hvalid] at hcreate
    exact absurd hcreate (by simp)
  · rw [if_neg hvalid] at hcreate
    have hit := Option.some.inj hcreate
    subst hit
    have hb : 1 ≤ batch_size.toNat := by omega
    have hcount : countBatchesAux (count - seq_len)
          { tokens := tokens, count := count, batch_size := batch_size.toNat,
            seq_len := seq_len, cursor := 0, shuffle := shuffle,
            drop_last := drop_last } =
        if drop_last = true then (count - seq_len) / batch_size.toNat
        else (count - seq_len + batch_size.toNat - 1) / batch_size.toNat :=
      countBatchesAux_spec batch_size.toNat hb (count - seq_len)
        { tokens := tokens, count := count, batch_size := batch_size.toNat,
          seq_len := seq_len, cursor := 0, shuffle := shuffle,
          drop_last := drop_last }
        rfl
        (by
          show count - seq_len - 0 ≤ count - seq_len
          omega)
    show countBatchesAux (count - seq_len)
        { tokens := tokens, count := count, batch_size := batch_size.toNat,
          seq_len := seq_len, cursor := 0, shuffle := shuffle,
          drop_last := drop_last } =
      if drop_last = true ∧ (count - seq_len) % batch_size.toNat ≠ 0 then
        (count - seq_len + batch_size.toNat - 1) / batch_size.toNat - 1
      else
        (count - seq_len + batch_size.toNat - 1) / batch_size.toNat
    rw [hcount]
    have hceil := ceil_div_eq_floor_add batch_size.toNat (count - seq_len) hb
    cases drop_last with
    | false =>
      rw [if_neg (by simp), if_neg (by simp)]
    | true =>
      rw [if_pos rfl]
      by_cases hr : (count - seq_len) % batch_size.toNat = 0
      · rw [if_pos hr] at hceil
        rw [if_neg (fun h => h.2 hr), hceil]
        rfl
      · rw [if_neg hr] at hceil
        rw [if_pos ⟨rfl, hr⟩, hceil, Nat.add_sub_cancel]

/-- The concrete iterator used by the C4 and C6 witnesses: 12 tokens,
`seq_len = 3`, `batch_size = 4`, no shuffling, no drop-last — 9 usable
windows, hence ⌈9/4⌉ = 3 batches. -/
def sampleIterator : CLLMBatchIterator :=
  { tokens := List.range 12, count := 12, batch_size := 4, seq_len := 3,
    cursor := 0, shuffle := false, drop_last := false }

/-- Witness for C4: the sample iterator is created successfully and yields
exactly 3 = ⌈9/4⌉ batches. -/
theorem batch_iterator_batch_count_witness :
    cllm_batch_iterator_create (List.range 12) 12 4 3 false false =
      some sampleIterator ∧
    countBatches sampleIterator = 3 :=
  ⟨by decide,
   (batch_iterator_batch_count (List.range 12) 12 4 3 false false
      sampleIterator (by decide)).trans (by decide)⟩

/-- Consuming batches never changes any field except the cursor. -/
lemma skipBatches_sameConfig (k : ℕ) (it : CLLMBatchIterator) :
    (skipBatches k it).tokens = it.tokens ∧
    (skipBatches k it).count = it.count ∧
    (skipBatches k it).batch_size = it.batch_size ∧
    (skipBatches k it).seq_len = it.seq_len ∧
    (skipBatches k it).shuffle = it.shuffle ∧
    (skipBatches k it).drop_last = it.drop_last := by
  have hsucc : ∀ (n : ℕ) (j : CLLMBatchIterator), skipBatches (n + 1) j =
      match cllm_batch_iterator_next_batch j with
      | none => j
      | some (_, j') => skipBatches n j' := fun _ _ => rfl
  induction k generalizing it with
  | zero => exact ⟨rfl, rfl, rfl, rfl, rfl, rfl⟩
  | succ n ih =>
    rcases hnb : cllm_batch_iterator_next_batch it with - | ⟨b, it'⟩
    · rw [hsucc, hnb]
      exact ⟨rfl, rfl, rfl, rfl, rfl, rfl⟩
    · rw [hsucc, hnb]
      rcases next_batch_sameConfig hnb with ⟨e1, e2, e3, e4, e5, e6⟩
      rcases ih it' with ⟨f1, f2, f3, f4, f5, f6⟩
      exact ⟨f1.trans e1, f2.trans e2, f3.trans e3, f4.trans e4,
        f5.trans e5, f6.trans e6⟩

/-- **C6.** For an iterator with `shuffle = false` taken from the start of
the stream: after consuming any number of batches, `reset()` rewinds the
cursor to 0, restores the iterator to its initial state, and the batch
sequence subsequently produced is identical to the first pass. -/
theorem batch_iterator_reset_reproduces (it : CLLMBatchIterator)
    (hsh : it.shuffle = false) (hc : it.cursor = 0) (k : ℕ) :
    (cllm_batch_iterator_reset (skipBatches k it)).cursor = 0 ∧
    cllm_batch_iterator_reset (skipBatches k it) = it ∧
    batchSeq (cllm_batch_iterator_reset (skipBatches k it)) = batchSeq it := by
  rcases skipBatches_sameConfig k it with ⟨e1, e2, e3, e4, e5, e6⟩
  have heq : cllm_batch_iterator_reset (skipBatches k it) = it := by
    ext1
    · exact e1
    · exact e2
    · exact e3
    · exact e4
    · exact hc.symm
    · exact e5
    · exact e6
  exact ⟨rfl, heq, congrArg batchSeq heq⟩

/-- Witness for C6: the sample iterator, one batch consumed, reset,
reproduces the first pass. -/
theorem batch_iterator_reset_reproduces_witness :
    sampleIterator.shuffle = false ∧ sampleIterator.cursor = 0 ∧
    ((cllm_batch_iterator_reset (skipBatches 1 sampleIterator)).cursor = 0 ∧
     cllm_batch_iterator_reset (skipBatches 1 sampleIterator) =
       sampleIterator ∧
     batchSeq (cllm_batch_iterator_reset (skipBatches 1 sampleIterator)) =
       batchSeq sampleIterator) :=
  ⟨rfl, rfl, batch_iterator_reset_reproduces sampleIterator rfl rfl 1⟩

end Crystalline
